import Mathlib

/-
Verification development for the GitHub Code Analyzer program
(src/assignment_2/github_analyser.py).

The program's logical core is embedded shallowly:
  - strings are Lean `String`s (Python `str` slicing and `replace` are
    modelled on the underlying `List Char`),
  - the Streamlit/HTTP/LLM side effects are modelled by oracles
    (functions passed in for the network responses) together with an
    explicit transcript of user-visible events (`Event`),
  - Python dictionaries with string keys are association lists.
-/

set_option maxRecDepth 4096

/-- Calendar date as produced by the `st.date_input` widget.  Python
`datetime.date` components; `strftime` with format `%Y-%m-%d` is modelled
by zero-padded decimal rendering. -/
structure Date where
  year : Nat
  month : Nat
  day : Nat
deriving DecidableEq, Repr

/-- Zero-pad a number to two digits, as `strftime` does for `%m` and `%d`. -/
def pad2 (n : Nat) : String :=
  if n < 10 then "0" ++ toString n else toString n

/-- Zero-pad a number to four digits, as `strftime` does for `%Y`. -/
def pad4 (n : Nat) : String :=
  if n < 10 then "000" ++ toString n
  else if n < 100 then "00" ++ toString n
  else if n < 1000 then "0" ++ toString n
  else toString n

/-- Rendering of `last_pushed.strftime("%Y-%m-%d")` (line 193 of the source). -/
def Date.strftimeYmd (d : Date) : String :=
  pad4 d.year ++ "-" ++ pad2 d.month ++ "-" ++ pad2 d.day

/-- The six optional filter inputs of the Advanced Search Filters expander
(lines 158-180).  Text inputs default to the empty string, the numeric
inputs have `min_value=0, value=0`, and `last_pushed` is `None` unless the
date checkbox is ticked. -/
structure SearchFilters where
  file_extension : String
  directory_path : String
  min_repo_size : Nat
  min_followers : Nat
  last_pushed : Option Date
  language_filter : String

/-- Embedding of the `QUALITY_FILTERS` construction (lines 183-195): a list
built by successive conditional `append` calls.  Python string truthiness
(`if file_extension:`) is nonemptiness; `if last_pushed:` is `isSome`
because a `datetime.date` is always truthy. -/
def QUALITY_FILTERS (f : SearchFilters) : List String :=
  let l : List String := []
  let l := if f.file_extension ≠ "" then l ++ ["extension:" ++ f.file_extension] else l
  let l := if f.directory_path ≠ "" then l ++ ["path:" ++ f.directory_path] else l
  let l := if 0 < f.min_repo_size then l ++ ["repo:>=" ++ toString f.min_repo_size] else l
  let l := if 0 < f.min_followers then l ++ ["user:>=" ++ toString f.min_followers ++ " followers"] else l
  let l := match f.last_pushed with
    | some d => l ++ ["pushed:>=" ++ Date.strftimeYmd d]
    | none => l
  if f.language_filter ≠ "" then l ++ ["language:" ++ f.language_filter] else l

/-- Modelled from the spec (section 4.1): the ordered token sequence the
Filter Builder contract promises, one token of the stated textual shape per
non-default input, in the fixed precedence order extension, path,
repository-size, follower-count, pushed-date, language. -/
def specFilterTokens (f : SearchFilters) : List String :=
  (if f.file_extension ≠ "" then ["extension:" ++ f.file_extension] else [])
  ++ (if f.directory_path ≠ "" then ["path:" ++ f.directory_path] else [])
  ++ (if 0 < f.min_repo_size then ["repo:>=" ++ toString f.min_repo_size] else [])
  ++ (if 0 < f.min_followers then ["user:>=" ++ toString f.min_followers ++ " followers"] else [])
  ++ (match f.last_pushed with
      | some d => ["pushed:>=" ++ Date.strftimeYmd d]
      | none => [])
  ++ (if f.language_filter ≠ "" then ["language:" ++ f.language_filter] else [])

/-- Embedding of line 212: the f-string
`f"{search_query} {' '.join(QUALITY_FILTERS)}"`.  Python `' '.join` is
`String.intercalate " "`. -/
def enhanced_query (search_query : String) (f : SearchFilters) : String :=
  search_query ++ " " ++ String.intercalate " " (QUALITY_FILTERS f)

/-- Embedding of line 240: `code_response.text[:2500]`.  Python string
slicing takes the first 2500 characters (code points). -/
def code_snippet (text : String) : String :=
  String.mk (text.data.take 2500)

/-- Fuel-driven worker for Python `str.replace`: scan left to right and
replace every non-overlapping occurrence of `p` by `r`.  The fuel makes the
recursion structural; `replaceAll` below instantiates it with enough fuel. -/
def replaceAllFuel (p r : List Char) : Nat → List Char → List Char
  | _, [] => []
  | 0, l => l
  | fuel + 1, c :: cs =>
    if p.isPrefixOf (c :: cs) then r ++ replaceAllFuel p r fuel ((c :: cs).drop p.length)
    else c :: replaceAllFuel p r fuel cs

/-- Python `str.replace` on character lists (for a nonempty pattern). -/
def replaceAll (p r l : List Char) : List Char :=
  replaceAllFuel p r l.length l

/-- Python `s.replace(pat, rep)` on `String`. -/
def pyReplace (s pat rep : String) : String :=
  String.mk (replaceAll pat.data rep.data s.data)

/-- Embedding of lines 233-235: the raw-URL transform
`item["html_url"].replace("https://github.com",
"https://raw.githubusercontent.com").replace("/blob", "")`. -/
def raw_url (html_url : String) : String :=
  pyReplace (pyReplace html_url "https://github.com" "https://raw.githubusercontent.com") "/blob" ""

/-- Documentation/basic preset (line 35). -/
def doc_basic_prompt : String :=
  "Generate comprehensive documentation for this code."

/-- Documentation/detailed preset (lines 37-42). -/
def doc_detailed_prompt : String :=
  "Generate comprehensive documentation for this code. \n                    Include: \n                    1. Purpose and functionality\n                    2. Key functions/classes\n                    3. Input/output specifications\n                    4. Usage examples"

/-- Documentation/advanced preset (lines 44-54). -/
def doc_advanced_prompt : String :=
  "As an expert developer and technical writer, generate thorough documentation for this code.\n                    Include:\n                    1. Executive summary of purpose and functionality\n                    2. Detailed breakdown of architecture and design patterns\n                    3. Complete API reference for all functions/classes/methods\n                    4. Input/output specifications with data types and constraints\n                    5. Error handling approach and edge cases\n                    6. Usage examples with expected outputs\n                    7. Dependencies and requirements\n                    8. Potential optimization opportunities\n                    "

/-- AI-detection/basic preset (line 58). -/
def ai_basic_prompt : String :=
  "Analyze this code for signs of AI generation."

/-- AI-detection/detailed preset (lines 60-66). -/
def ai_detailed_prompt : String :=
  "\n                    Analyze this code for signs of AI generation. Consider:\n                    1. Code structure patterns\n                    2. Common AI-generated code characteristics\n                    3. Documentation quality\n                    4. Style consistency\n                    "

/-- AI-detection/advanced preset (lines 68-94). -/
def ai_advanced_prompt : String :=
  "\n                    As an expert in code analysis and AI-generated content detection, thoroughly examine this code for hallmarks of AI generation.\n                    Analyze the following aspects and provide a confidence score (0-100%) for each:\n\n                    1. Structural fingerprints:\n                        - Overly consistent formatting that lacks human variability\n                        - Unnaturally regular comment patterns and documentation\n                        - Excessive or redundant error handling\n                    \n                    2. Stylistic indicators:\n                        - Variable naming conventions that are too consistent or follow textbook patterns\n                        - Lack of developer shortcuts or \x22quirks\x22 found in human code\n                        - Unnatural comment-to-code ratio\n                    \n                    3. Logical patterns:\n                        - Solutions that follow common tutorial examples too closely\n                        - Implementations that prioritize readability over efficiency\n                        - Overly abstracted or generalized solutions when specificity would be more appropriate\n                    \n                    4. Technical hallmarks:\n                        - Implementation approaches that align with common LLM training data\n                        - Inclusion of explanatory comments that a human developer wouldn\x27t typically include\n                        - Missing domain-specific optimizations that human experts would implement\n                    \n                    Conclude with an overall assessment of whether this code was likely AI-generated,\n                    partially AI-assisted, or human-written, with an overall confidence score.\n                    "

/-- The `DOCUMENTATION_PROMPTS` dictionary (lines 34-55) as an association
list in insertion order. -/
def DOCUMENTATION_PROMPTS : List (String × String) :=
  [("basic", doc_basic_prompt), ("detailed", doc_detailed_prompt), ("advanced", doc_advanced_prompt)]

/-- The `AI_DETECTION_PROMPTS` dictionary (lines 57-95) as an association
list in insertion order. -/
def AI_DETECTION_PROMPTS : List (String × String) :=
  [("basic", ai_basic_prompt), ("detailed", ai_detailed_prompt), ("advanced", ai_advanced_prompt)]

/-- Python `d.get(key, default)` on an association list. -/
def dict_get (d : List (String × String)) (key default : String) : String :=
  (d.lookup key).getD default

/-- Embedding of the prompt selection in `main` (lines 216-219):
`DOCUMENTATION_PROMPTS.get(prompt_level, DOCUMENTATION_PROMPTS["detailed"])`
for the Documentation Generator mode, and the analogous lookup on
`AI_DETECTION_PROMPTS` otherwise.  The subscript `["detailed"]` always
succeeds on these concrete dictionaries, so it is modelled by a lookup with
an irrelevant default. -/
def selectPrompt (analysis_mode prompt_level : String) : String :=
  if analysis_mode = "Documentation Generator" then
    dict_get DOCUMENTATION_PROMPTS prompt_level (dict_get DOCUMENTATION_PROMPTS "detailed" "")
  else
    dict_get AI_DETECTION_PROMPTS prompt_level (dict_get AI_DETECTION_PROMPTS "detailed" "")

/-- One item of the GitHub code-search JSON response, with the fields the
program reads (`name`, `repository.full_name`, `html_url`). -/
structure Item where
  name : String
  repo_full_name : String
  html_url : String

/-- Parsed JSON body of a code-search response: `total_count` and the
ordered `items` sequence. -/
structure SearchResponse where
  total_count : Nat
  items : List Item

/-- Outcome of the single `requests.get` in `search_github_code`, as
delivered by the network oracle: either a transport-level error (raises
`requests.exceptions.RequestException`), or an HTTP response with its final
status code and, when the body parses as the expected JSON, the parsed
body (`none` models a body `.json()` rejects, which also raises a
`RequestException` subclass). -/
inductive GetOutcome where
  | transportError (msg : String)
  | response (status : Nat) (body : Option SearchResponse)

/-- User-visible and outbound-call events of one Analyze run, in program
order: Streamlit messages, the search GET (with its `q` parameter and
headers), the raw-content GET, the rendered snippet, the LLM invocation
(with the configured temperature) and the rendered analysis. -/
inductive Event where
  | warning (msg : String)
  | writeQuery (enhanced : String)
  | getRequest (url : String) (query : String) (headers : List (String × String))
  | successMsg (msg : String)
  | errorMsg (msg : String)
  | fetchGet (url : String)
  | codeShown (snippet : String)
  | llmCall (input : String) (temp : Rat)
  | analysisShown (text : String)
deriving DecidableEq

/-- The three request headers set up in `init` (lines 20-24). -/
def HEADERS (token : String) : List (String × String) :=
  [("Accept", "application/vnd.github+json"),
   ("Authorization", "Bearer " ++ token),
   ("X-GitHub-Api-Version", "2022-11-28")]

/-- The temperature fixed in `init` (line 17) when constructing the chat
model client. -/
def init_temperature : Rat := 7 / 10

/-- Embedding of `search_github_code` (lines 97-107).  The oracle `http`
stands for `requests.get(url, params={"q": query}, headers=headers)`.
`response.raise_for_status()` raises exactly for status codes in the 4xx
and 5xx ranges; the raised error, a transport error, or a JSON-decode
error is caught and reported via `st.error`, returning `None`.  The result
is the returned value paired with the transcript of this call. -/
def search_github_code (http : String → String → List (String × String) → GetOutcome)
    (url token query : String) : Option SearchResponse × List Event :=
  match http url query (HEADERS token) with
  | GetOutcome.transportError e =>
    (none, [Event.getRequest url query (HEADERS token),
            Event.errorMsg ("GitHub API Error: " ++ e)])
  | GetOutcome.response status body =>
    if 400 ≤ status then
      (none, [Event.getRequest url query (HEADERS token),
              Event.errorMsg ("GitHub API Error: HTTP " ++ toString status)])
    else
      match body with
      | some j => (some j, [Event.getRequest url query (HEADERS token)])
      | none => (none, [Event.getRequest url query (HEADERS token),
                        Event.errorMsg "GitHub API Error: JSON decode error"])

/-- Embedding of `analyze_with_llm` (lines 109-116).  The oracle `llm`
stands for `st.session_state.llm.invoke`; `Except.error e` models a raised
exception with message `e`, which is caught, reported via `st.error`, and
turned into a `None` return.  The `temp` argument records the temperature
the client was constructed with in `init`. -/
def analyze_with_llm (llm : String → Except String String) (temp : Rat)
    (snippet prompt : String) : Option String × List Event :=
  match llm (prompt ++ "\n\n" ++ snippet) with
  | Except.ok content => (some content, [Event.llmCall (prompt ++ "\n\n" ++ snippet) temp])
  | Except.error e =>
    (none, [Event.llmCall (prompt ++ "\n\n" ++ snippet) temp,
            Event.errorMsg ("OpenAI API Error: " ++ e)])

/-- Embedding of one iteration of the result loop in `main` (lines
230-257): derive the raw URL, GET it (oracle `fetch` returns the status
code and body text), on status 200 truncate to the snippet, show it, and
run the analyzer, showing its result or an error; on any other status show
the fetch error. -/
def processItem (fetch : String → Nat × String) (llm : String → Except String String)
    (temp : Rat) (prompt : String) (item : Item) : List Event :=
  let ru := raw_url item.html_url
  Event.fetchGet ru ::
    (if (fetch ru).1 = 200 then
      let snippet := code_snippet (fetch ru).2
      Event.codeShown snippet ::
        (analyze_with_llm llm temp snippet prompt).2 ++
        (match (analyze_with_llm llm temp snippet prompt).1 with
         | some a => if a = "" then [Event.errorMsg "Failed to analyze code."]
                     else [Event.analysisShown a]
         | none => [Event.errorMsg "Failed to analyze code."])
    else [Event.errorMsg "Failed to retrieve code content"])

/-- Embedding of the loop header `for item in search_results["items"][:3]`
(line 230): only the first three items are processed, one at a time in
sequence. -/
def processBatch (fetch : String → Nat × String) (llm : String → Except String String)
    (temp : Rat) (prompt : String) (items : List Item) : List Event :=
  (items.take 3).flatMap (processItem fetch llm temp prompt)

/-- Embedding of the `Analyze Code` button handler in `main` (lines
207-259): guard on an empty query, build the enhanced query and show it,
select the prompt, run the search, and on a parsed response show the
count banner and process the batch; otherwise show the no-results error. -/
def runAnalyze (search_query : String) (filters : SearchFilters)
    (analysis_mode prompt_level token search_url : String)
    (http : String → String → List (String × String) → GetOutcome)
    (fetch : String → Nat × String) (llm : String → Except String String) : List Event :=
  if search_query = "" then [Event.warning "Please enter a search query"]
  else
    Event.writeQuery (enhanced_query search_query filters) ::
      (search_github_code http search_url token (enhanced_query search_query filters)).2 ++
      (match (search_github_code http search_url token (enhanced_query search_query filters)).1 with
       | some results =>
         Event.successMsg ("Found " ++ toString results.total_count ++ " results") ::
           processBatch fetch llm init_temperature (selectPrompt analysis_mode prompt_level)
             results.items
       | none => [Event.errorMsg "No results found or error in search"])

/-- Raw-content URLs fetched during a transcript, in order. -/
def fetchedUrls (es : List Event) : List String :=
  es.filterMap (fun e => match e with | Event.fetchGet u => some u | _ => none)

/-- LLM invocation inputs of a transcript, in order. -/
def llmInputs (es : List Event) : List String :=
  es.filterMap (fun e => match e with | Event.llmCall input _ => some input | _ => none)

/-- Search GET requests of a transcript, in order. -/
def searchGets (es : List Event) : List (String × String × List (String × String)) :=
  es.filterMap (fun e => match e with
    | Event.getRequest u q h => some (u, q, h)
    | _ => none)

/-- Default state of the filter form: all six inputs untouched. -/
def emptyFilters : SearchFilters :=
  { file_extension := "", directory_path := "", min_repo_size := 0,
    min_followers := 0, last_pushed := none, language_filter := "" }

/-- A response body strictly longer than the 2500-character bound. -/
def bigBody : String := String.mk (List.replicate 2501 'x')

/-- Concrete search result items used to exercise the batch loop. -/
def w_item1 : Item := ⟨"a.py", "o/r1", "https://github.com/o/r1/blob/m/a.py"⟩

/-- Second concrete item (the one made to fail in the error scenarios). -/
def w_item2 : Item := ⟨"b.py", "o/r2", "https://github.com/o/r2/blob/m/b.py"⟩

/-- Third concrete item. -/
def w_item3 : Item := ⟨"c.py", "o/r3", "https://github.com/o/r3/blob/m/c.py"⟩

/-- Fetch oracle: raw GET fails with 404 exactly for the second item's raw
URL and otherwise answers 200 with the URL itself as the body text. -/
def w_fetchA : String → Nat × String :=
  fun u => if u = raw_url w_item2.html_url then (404, "") else (200, u)

/-- Fetch oracle answering 200 for every URL, body = the URL. -/
def w_fetchB : String → Nat × String := fun u => (200, u)

/-- LLM oracle answering every instruction with the text `A`. -/
def w_llmA : String → Except String String := fun _ => Except.ok "A"

/-- LLM oracle raising an exception exactly on the instruction built for
the second item under `w_fetchB` and the prompt `P`. -/
def w_llmB : String → Except String String :=
  fun s => if s = "P" ++ "\n\n" ++ code_snippet (raw_url w_item2.html_url)
           then Except.error "boom" else Except.ok "A"

/-- LLM oracle that always raises. -/
def w_llmErr : String → Except String String := fun _ => Except.error "boom"

/-- Empty successful search response (`total_count = 0`, no items). -/
def w_resp0 : SearchResponse := ⟨0, []⟩

/-- Search oracle answering every request with HTTP 200 and `w_resp0`. -/
def w_http0 : String → String → List (String × String) → GetOutcome :=
  fun _ _ _ => GetOutcome.response 200 (some w_resp0)

/-- One-item response used for the non-2xx counterexample. -/
def ce_resp : SearchResponse := ⟨1, [w_item1]⟩

/-- Search oracle answering every request with the non-2xx, non-error
status 300 and a parseable JSON body. -/
def ce_http300 : String → String → List (String × String) → GetOutcome :=
  fun _ _ _ => GetOutcome.response 300 (some ce_resp)

/-- Search oracle raising a transport error on every request. -/
def w_httpErr : String → String → List (String × String) → GetOutcome :=
  fun _ _ _ => GetOutcome.transportError "down"

/-- Search oracle answering every request with HTTP 500 and no body. -/
def w_http500 : String → String → List (String × String) → GetOutcome :=
  fun _ _ _ => GetOutcome.response 500 none

theorem replaceAllFuel_nil (p r : List Char) (fuel : Nat) :
    replaceAllFuel p r fuel [] = [] := by
  cases fuel <;> rfl

theorem replaceAllFuel_cons (p r : List Char) (fuel : Nat) (c : Char) (cs : List Char) :
    replaceAllFuel p r (fuel + 1) (c :: cs)
      = if p.isPrefixOf (c :: cs) then r ++ replaceAllFuel p r fuel ((c :: cs).drop p.length)
        else c :: replaceAllFuel p r fuel cs := rfl

theorem replaceAllFuel_congr (p r : List Char) (hp : p ≠ []) :
    ∀ (f₁ : Nat) (l : List Char) (f₂ : Nat), l.length ≤ f₁ → l.length ≤ f₂ →
      replaceAllFuel p r f₁ l = replaceAllFuel p r f₂ l := by
  have hplen : 0 < p.length := List.length_pos.mpr hp
  intro f₁
  induction f₁ with
  | zero =>
    intro l f₂ h1 _
    have hl : l = [] := List.eq_nil_of_length_eq_zero (Nat.le_zero.mp h1)
    subst hl
    simp [ replaceAllFuel_nil]
  | succ f ih =>
    intro l f₂ h1 h2
    cases l with
    | nil => simp [ replaceAllFuel_nil]
    | cons c cs =>
      simp only [List.length_cons] at h1 h2
      cases f₂ with
      | zero => omega
      | succ g =>
        rw [replaceAllFuel_cons, replaceAllFuel_cons]
        by_cases hpre : p.isPrefixOf (c :: cs)
        · rw [if_pos hpre, if_pos hpre]
          have hd : ((c :: cs).drop p.length).length ≤ f := by
            simp only [List.length_drop, List.length_cons]
            omega
          have hd2 : ((c :: cs).drop p.length).length ≤ g := by
            simp only [List.length_drop, List.length_cons]
            omega
          rw [ih ((c :: cs).drop p.length) g hd hd2]
        · rw [if_neg hpre, if_neg hpre]
          rw [ih cs g (by omega) (by omega)]

theorem replaceAll_cons_pos (p r : List Char) (c : Char) (cs : List Char)
    (hp : p ≠ []) (hpre : p.isPrefixOf (c :: cs)) :
    replaceAll p r (c :: cs) = r ++ replaceAll p r ((c :: cs).drop p.length) := by
  have hplen : 0 < p.length := List.length_pos.mpr hp
  show replaceAllFuel p r (c :: cs).length (c :: cs) = _
  rw [List.length_cons, replaceAllFuel_cons, if_pos hpre]
  congr 1
  apply replaceAllFuel_congr p r hp
  · simp only [List.length_drop, List.length_cons]
    omega
  · exact Nat.le_refl _

theorem replaceAll_cons_neg (p r : List Char) (c : Char) (cs : List Char)
    (hpre : ¬ p.isPrefixOf (c :: cs)) :
    replaceAll p r (c :: cs) = c :: replaceAll p r cs := by
  show replaceAllFuel p r (c :: cs).length (c :: cs) = _
  rw [List.length_cons, replaceAllFuel_cons, if_neg hpre]
  rfl

theorem replaceAll_of_not_sub (p r l : List Char) (h : ¬ p <:+: l) :
    replaceAll p r l = l := by
  induction l with
  | nil => rfl
  | cons c cs ih =>
    have hpre : ¬ p.isPrefixOf (c :: cs) := by
      intro hpb
      exact h (List.IsPrefix.isInfix (List.isPrefixOf_iff_prefix.mp hpb))
    rw [replaceAll_cons_neg p r c cs hpre]
    rw [ih (fun hi => h (List.infix_cons hi))]

theorem replaceAll_append_match (p r : List Char) (hp : p ≠ []) :
    ∀ (a b : List Char), ¬ p <:+: (a ++ p.dropLast) →
      replaceAll p r (a ++ p ++ b) = a ++ r ++ replaceAll p r b := by
  intro a
  induction a with
  | nil =>
    intro b _
    have hpre : p.isPrefixOf (p ++ b) :=
      List.isPrefixOf_iff_prefix.mpr (List.prefix_append p b)
    cases hq : p ++ b with
    | nil => exact absurd (List.append_eq_nil.mp hq).1 hp
    | cons c cs =>
      have hstep := replaceAll_cons_pos p r c cs hp (hq ▸ hpre)
      rw [List.nil_append, hq, hstep, ← hq, List.drop_left p b, List.nil_append]
  | cons c a' ih =>
    intro b h
    have hpre : ¬ p.isPrefixOf (c :: (a' ++ p ++ b)) := by
      intro hpb
      apply h
      have hpfx : p <+: (c :: a') ++ p ++ b := by
        simpa using List.isPrefixOf_iff_prefix.mp hpb
      have hlen : p.length ≤ ((c :: a') ++ p.dropLast).length := by
        simp only [List.length_append, List.length_cons, List.length_dropLast]
        have := List.length_pos.mpr hp
        omega
      have hsplit : (c :: a') ++ p ++ b
          = ((c :: a') ++ p.dropLast) ++ ([p.getLast hp] ++ b) := by
        rw [List.append_assoc, List.append_assoc, ← List.append_assoc p.dropLast]
        rw [List.dropLast_concat_getLast hp]
      have htake : (((c :: a') ++ p.dropLast) ++ ([p.getLast hp] ++ b)).take p.length = p :=
        (List.prefix_iff_eq_take.mp (hsplit ▸ hpfx)).symm
      rw [List.take_append_of_le_length hlen] at htake
      have hbase := List.take_prefix p.length ((c :: a') ++ p.dropLast)
      rw [htake] at hbase
      exact List.IsPrefix.isInfix hbase
    have hstep : replaceAll p r ((c :: a') ++ p ++ b)
        = c :: replaceAll p r (a' ++ p ++ b) := by
      have := replaceAll_cons_neg p r c (a' ++ p ++ b) (by simpa using hpre)
      simpa using this
    have hih : ¬ p <:+: (a' ++ p.dropLast) := by
      intro hi
      exact h (by simpa using List.infix_cons hi)
    rw [hstep, ih b hih]
    simp

theorem append_ne_of_head (a b x y : String) (ca cb : Char) (la lb : List Char)
    (hca : a.data = ca :: la) (hcb : b.data = cb :: lb) (hne : ca ≠ cb) :
    a ++ x ≠ b ++ y := by
  intro h
  have hd := congrArg String.data h
  rw [String.data_append, String.data_append, hca, hcb] at hd
  simp only [List.cons_append, List.cons.injEq] at hd
  exact hne hd.1

theorem mem_ite_singleton (c : Prop) [Decidable c] (a b : String) :
    (a ∈ if c then [b] else []) ↔ c ∧ a = b := by
  split <;> rename_i hcond <;> simp [hcond]

theorem quality_filters_eq_spec (f : SearchFilters) :
    QUALITY_FILTERS f = specFilterTokens f := by
  obtain ⟨fe, dp, rs, mf, lp, lf⟩ := f
  simp only [QUALITY_FILTERS, specFilterTokens]
  cases lp with
  | none =>
    by_cases h1 : fe ≠ "" <;> by_cases h2 : dp ≠ "" <;> by_cases h3 : 0 < rs <;>
      by_cases h4 : 0 < mf <;> by_cases h5 : lf ≠ "" <;> simp [h1, h2, h3, h4, h5]
  | some d =>
    by_cases h1 : fe ≠ "" <;> by_cases h2 : dp ≠ "" <;> by_cases h3 : 0 < rs <;>
      by_cases h4 : 0 < mf <;> by_cases h5 : lf ≠ "" <;> simp [h1, h2, h3, h4, h5]

theorem repo_token_mem_iff (f : SearchFilters) :
    ("repo:>=" ++ toString f.min_repo_size) ∈ QUALITY_FILTERS f ↔ 0 < f.min_repo_size := by
  rw [quality_filters_eq_spec]
  obtain ⟨fe, dp, rs, mf, lp, lf⟩ := f
  simp only [specFilterTokens, List.mem_append, mem_ite_singleton]
  cases lp with
  | none =>
    constructor
    · rintro (((((⟨h1, he⟩ | ⟨h2, he⟩) | ⟨h3, he⟩) | ⟨h4, he⟩) | hp) | ⟨h5, he⟩)
      · have hd := congrArg String.data he
        simp only [String.data_append, List.cons_append, List.cons.injEq] at hd
        exact absurd hd.1 (by decide)
      · have hd := congrArg String.data he
        simp only [String.data_append, List.cons_append, List.cons.injEq] at hd
        exact absurd hd.1 (by decide)
      · exact h3
      · have hd := congrArg String.data he
        simp only [String.data_append, List.cons_append, List.cons.injEq] at hd
        exact absurd hd.1 (by decide)
      · simp at hp
      · have hd := congrArg String.data he
        simp only [String.data_append, List.cons_append, List.cons.injEq] at hd
        exact absurd hd.1 (by decide)
    · intro h
      exact Or.inl (Or.inl (Or.inl (Or.inr ⟨h, trivial⟩)))
  | some d =>
    constructor
    · rintro (((((⟨h1, he⟩ | ⟨h2, he⟩) | ⟨h3, he⟩) | ⟨h4, he⟩) | hp) | ⟨h5, he⟩)
      · have hd := congrArg String.data he
        simp only [String.data_append, List.cons_append, List.cons.injEq] at hd
        exact absurd hd.1 (by decide)
      · have hd := congrArg String.data he
        simp only [String.data_append, List.cons_append, List.cons.injEq] at hd
        exact absurd hd.1 (by decide)
      · exact h3
      · have hd := congrArg String.data he
        simp only [String.data_append, List.cons_append, List.cons.injEq] at hd
        exact absurd hd.1 (by decide)
      · simp at hp
        have hd := congrArg String.data hp
        simp only [String.data_append, List.cons_append, List.cons.injEq] at hd
        exact absurd hd.1 (by decide)
      · have hd := congrArg String.data he
        simp only [String.data_append, List.cons_append, List.cons.injEq] at hd
        exact absurd hd.1 (by decide)
    · intro h
      exact Or.inl (Or.inl (Or.inl (Or.inr ⟨h, trivial⟩)))

theorem followers_token_mem_iff (f : SearchFilters) :
    ("user:>=" ++ toString f.min_followers ++ " followers") ∈ QUALITY_FILTERS f
      ↔ 0 < f.min_followers := by
  rw [quality_filters_eq_spec]
  obtain ⟨fe, dp, rs, mf, lp, lf⟩ := f
  simp only [specFilterTokens, List.mem_append, mem_ite_singleton]
  cases lp with
  | none =>
    constructor
    · rintro (((((⟨h1, he⟩ | ⟨h2, he⟩) | ⟨h3, he⟩) | ⟨h4, he⟩) | hp) | ⟨h5, he⟩)
      · have hd := congrArg String.data he
        simp only [String.data_append, List.cons_append, List.cons.injEq] at hd
        exact absurd hd.1 (by decide)
      · have hd := congrArg String.data he
        simp only [String.data_append, List.cons_append, List.cons.injEq] at hd
        exact absurd hd.1 (by decide)
      · have hd := congrArg String.data he
        simp only [String.data_append, List.cons_append, List.cons.injEq] at hd
        exact absurd hd.1 (by decide)
      · exact h4
      · simp at hp
      · have hd := congrArg String.data he
        simp only [String.data_append, List.cons_append, List.cons.injEq] at hd
        exact absurd hd.1 (by decide)
    · intro h
      exact Or.inl (Or.inl (Or.inr ⟨h, trivial⟩))
  | some d =>
    constructor
    · rintro (((((⟨h1, he⟩ | ⟨h2, he⟩) | ⟨h3, he⟩) | ⟨h4, he⟩) | hp) | ⟨h5, he⟩)
      · have hd := congrArg String.data he
        simp only [String.data_append, List.cons_append, List.cons.injEq] at hd
        exact absurd hd.1 (by decide)
      · have hd := congrArg String.data he
        simp only [String.data_append, List.cons_append, List.cons.injEq] at hd
        exact absurd hd.1 (by decide)
      · have hd := congrArg String.data he
        simp only [String.data_append, List.cons_append, List.cons.injEq] at hd
        exact absurd hd.1 (by decide)
      · exact h4
      · simp at hp
        have hd := congrArg String.data hp
        simp only [String.data_append, List.cons_append, List.cons.injEq] at hd
        exact absurd hd.1 (by decide)
      · have hd := congrArg String.data he
        simp only [String.data_append, List.cons_append, List.cons.injEq] at hd
        exact absurd hd.1 (by decide)
    · intro h
      exact Or.inl (Or.inl (Or.inr ⟨h, trivial⟩))

theorem raw_url_general (owner repo branch path : String)
    (h1 : ¬ (("https://github.com" : String).data <:+:
        ("/" ++ owner ++ "/" ++ repo ++ "/blob/" ++ branch ++ "/" ++ path : String).data))
    (h2 : ¬ (("/blob" : String).data <:+:
        (("https://raw.githubusercontent.com/" ++ owner ++ "/" ++ repo : String).data
          ++ ("/blob" : String).data.dropLast)))
    (h3 : ¬ (("/blob" : String).data <:+: ("/" ++ branch ++ "/" ++ path : String).data)) :
    raw_url ("https://github.com/" ++ owner ++ "/" ++ repo ++ "/blob/" ++ branch ++ "/" ++ path)
      = "https://raw.githubusercontent.com/" ++ owner ++ "/" ++ repo ++ "/" ++ branch ++ "/" ++ path := by
  have hU : ("https://github.com/" ++ owner ++ "/" ++ repo ++ "/blob/" ++ branch ++ "/" ++ path : String).data
      = ("https://github.com" : String).data
        ++ ("/" ++ owner ++ "/" ++ repo ++ "/blob/" ++ branch ++ "/" ++ path : String).data := by
    simp only [String.data_append]
    simp [List.append_assoc, List.cons_append]
  have step1 : replaceAll ("https://github.com" : String).data
      ("https://raw.githubusercontent.com" : String).data
      ("https://github.com/" ++ owner ++ "/" ++ repo ++ "/blob/" ++ branch ++ "/" ++ path : String).data
      = ("https://raw.githubusercontent.com" : String).data
        ++ ("/" ++ owner ++ "/" ++ repo ++ "/blob/" ++ branch ++ "/" ++ path : String).data := by
    rw [hU]
    have hm := replaceAll_append_match ("https://github.com" : String).data
      ("https://raw.githubusercontent.com" : String).data (by decide) []
      ("/" ++ owner ++ "/" ++ repo ++ "/blob/" ++ branch ++ "/" ++ path : String).data
      (by decide)
    simp only [List.nil_append] at hm
    rw [hm, replaceAll_of_not_sub _ _ _ h1]
  have hX : ("https://raw.githubusercontent.com" : String).data
        ++ ("/" ++ owner ++ "/" ++ repo ++ "/blob/" ++ branch ++ "/" ++ path : String).data
      = ("https://raw.githubusercontent.com/" ++ owner ++ "/" ++ repo : String).data
        ++ ("/blob" : String).data ++ ("/" ++ branch ++ "/" ++ path : String).data := by
    simp only [String.data_append]
    simp [List.append_assoc, List.cons_append]
  have step2 : replaceAll ("/blob" : String).data ("" : String).data
      (("https://raw.githubusercontent.com" : String).data
        ++ ("/" ++ owner ++ "/" ++ repo ++ "/blob/" ++ branch ++ "/" ++ path : String).data)
      = ("https://raw.githubusercontent.com/" ++ owner ++ "/" ++ repo : String).data
        ++ ("/" ++ branch ++ "/" ++ path : String).data := by
    rw [hX]
    have hm := replaceAll_append_match ("/blob" : String).data ("" : String).data (by decide)
      ("https://raw.githubusercontent.com/" ++ owner ++ "/" ++ repo : String).data
      ("/" ++ branch ++ "/" ++ path : String).data h2
    rw [hm, replaceAll_of_not_sub _ _ _ h3]
    simp
  apply String.ext
  show replaceAll ("/blob" : String).data ("" : String).data
      (replaceAll ("https://github.com" : String).data
        ("https://raw.githubusercontent.com" : String).data
        ("https://github.com/" ++ owner ++ "/" ++ repo ++ "/blob/" ++ branch ++ "/" ++ path : String).data)
      = _
  rw [step1, step2]
  simp only [String.data_append]
  simp [List.append_assoc, List.cons_append]

theorem fetchedUrls_processItem (fetch : String → Nat × String)
    (llm : String → Except String String) (temp : Rat) (prompt : String) (item : Item) :
    fetchedUrls (processItem fetch llm temp prompt item) = [raw_url item.html_url] := by
  rcases hf : fetch (raw_url item.html_url) with ⟨st, text⟩
  by_cases h : st = 200
  · rcases hl : llm (prompt ++ "\n\n" ++ code_snippet text) with e | c
    · simp [processItem, analyze_with_llm, hf, hl, h, fetchedUrls]
    · by_cases hc : c = "" <;>
        simp [processItem, analyze_with_llm, hf, hl, h, hc, fetchedUrls]
  · simp [processItem, hf, h, fetchedUrls]

theorem llmInputs_processItem_le (fetch : String → Nat × String)
    (llm : String → Except String String) (temp : Rat) (prompt : String) (item : Item) :
    (llmInputs (processItem fetch llm temp prompt item)).length ≤ 1 := by
  rcases hf : fetch (raw_url item.html_url) with ⟨st, text⟩
  by_cases h : st = 200
  · rcases hl : llm (prompt ++ "\n\n" ++ code_snippet text) with e | c
    · simp [processItem, analyze_with_llm, hf, hl, h, llmInputs]
    · by_cases hc : c = "" <;>
        simp [processItem, analyze_with_llm, hf, hl, h, hc, llmInputs]
  · simp [processItem, hf, h, llmInputs]

theorem fetchedUrls_flatMap (fetch : String → Nat × String)
    (llm : String → Except String String) (temp : Rat) (prompt : String) :
    ∀ l : List Item, fetchedUrls (l.flatMap (processItem fetch llm temp prompt))
      = l.map (fun it => raw_url it.html_url) := by
  intro l
  induction l with
  | nil => rfl
  | cons a t ih =>
    rw [List.flatMap_cons]
    show (List.filterMap _ (processItem fetch llm temp prompt a ++ _)) = _
    rw [List.filterMap_append]
    show fetchedUrls (processItem fetch llm temp prompt a) ++ fetchedUrls (t.flatMap _) = _
    rw [fetchedUrls_processItem, ih, List.map_cons]
    rfl

theorem fetchedUrls_processBatch (fetch : String → Nat × String)
    (llm : String → Except String String) (temp : Rat) (prompt : String) (items : List Item) :
    fetchedUrls (processBatch fetch llm temp prompt items)
      = (items.take 3).map (fun it => raw_url it.html_url) := by
  unfold processBatch
  exact fetchedUrls_flatMap fetch llm temp prompt (items.take 3)

theorem llmInputs_flatMap_le (fetch : String → Nat × String)
    (llm : String → Except String String) (temp : Rat) (prompt : String) :
    ∀ l : List Item, (llmInputs (l.flatMap (processItem fetch llm temp prompt))).length
      ≤ l.length := by
  intro l
  induction l with
  | nil => simp [llmInputs]
  | cons a t ih =>
    rw [List.flatMap_cons]
    show (List.filterMap _ (processItem fetch llm temp prompt a ++ _)).length ≤ _
    rw [List.filterMap_append, List.length_append]
    have h1 := llmInputs_processItem_le fetch llm temp prompt a
    have h2 : (llmInputs (t.flatMap (processItem fetch llm temp prompt))).length ≤ t.length := ih
    simp only [llmInputs] at h1 h2
    simp only [List.length_cons]
    omega

theorem search_github_code_ok (http : String → String → List (String × String) → GetOutcome)
    (url token query : String) (r : SearchResponse)
    (hs : http url query (HEADERS token) = GetOutcome.response 200 (some r)) :
    search_github_code http url token query
      = (some r, [Event.getRequest url query (HEADERS token)]) := by
  simp [search_github_code, hs]

/-- C1: for every combination of the six optional filter inputs, the
Filter Builder produces exactly one qualifier token per non-default input
and none for default inputs, in the fixed order extension, path,
repo-size, followers, pushed-date, language, each with its exact textual
form; in particular the repo-size and followers tokens appear iff their
numeric input is strictly greater than 0. -/
theorem C1_filter_builder (f : SearchFilters) :
    QUALITY_FILTERS f = specFilterTokens f
    ∧ (("repo:>=" ++ toString f.min_repo_size) ∈ QUALITY_FILTERS f ↔ 0 < f.min_repo_size)
    ∧ (("user:>=" ++ toString f.min_followers ++ " followers") ∈ QUALITY_FILTERS f
        ↔ 0 < f.min_followers) :=
  ⟨quality_filters_eq_spec f, repo_token_mem_iff f, followers_token_mem_iff f⟩

/-- C2 counterexample: with the default (empty) filter set the final
search string is not the free-text query itself — the f-string leaves a
trailing space. -/
theorem C2_counterexample :
    QUALITY_FILTERS emptyFilters = [] ∧ enhanced_query "CNN" emptyFilters ≠ "CNN" := by
  constructor <;> decide

/-- C2 (amended): the final search string is the free-text query, one
space, then the space-joined qualifier tokens in their fixed order; in
particular, when the filter set is empty the final string is the query
followed by a single trailing space (not the query itself). -/
theorem C2_enhanced_query (q : String) (f : SearchFilters) :
    enhanced_query q f = q ++ " " ++ String.intercalate " " (specFilterTokens f)
    ∧ (specFilterTokens f = [] → enhanced_query q f = q ++ " ") := by
  constructor
  · rw [enhanced_query, quality_filters_eq_spec]
  · intro h
    rw [enhanced_query, quality_filters_eq_spec, h]
    apply String.ext
    simp [String.intercalate]

/-- C2 witness: the amended statement evaluated at the query `CNN` and
the default filter set. -/
theorem C2_enhanced_query_witness :
    enhanced_query "CNN" emptyFilters
        = "CNN" ++ " " ++ String.intercalate " " (specFilterTokens emptyFilters)
    ∧ enhanced_query "CNN" emptyFilters = "CNN" ++ " " :=
  ⟨(C2_enhanced_query "CNN" emptyFilters).1,
   (C2_enhanced_query "CNN" emptyFilters).2 (by decide)⟩

/-- C3 counterexample: for a path whose own first segment is named
`blob`, Python `str.replace` deletes that occurrence of `/blob` too, so
the transform does not leave the rest of the URL unchanged (expected
suffix `/b/blob/f`, actual `/b/f`). -/
theorem C3_counterexample :
    raw_url "https://github.com/o/r/blob/b/blob/f"
        = "https://raw.githubusercontent.com/o/r/b/f"
    ∧ raw_url "https://github.com/o/r/blob/b/blob/f"
        ≠ "https://raw.githubusercontent.com/o/r/b/blob/f" := by
  constructor <;> decide

/-- C3 (amended): the transform replaces the substring
`https://github.com` and deletes every occurrence of the substring
`/blob`; whenever `/blob` occurs nowhere in the URL except as the blob
path segment (and the search-pattern `https://github.com` does not reoccur
after the host), the mapping is exactly
`https://github.com/OWNER/REPO/blob/BRANCH/PATH` to
`https://raw.githubusercontent.com/OWNER/REPO/BRANCH/PATH`. -/
theorem C3_raw_url_amended (owner repo branch path : String)
    (h1 : ¬ (("https://github.com" : String).data <:+:
        ("/" ++ owner ++ "/" ++ repo ++ "/blob/" ++ branch ++ "/" ++ path : String).data))
    (h2 : ¬ (("/blob" : String).data <:+:
        (("https://raw.githubusercontent.com/" ++ owner ++ "/" ++ repo : String).data
          ++ ("/blob" : String).data.dropLast)))
    (h3 : ¬ (("/blob" : String).data <:+: ("/" ++ branch ++ "/" ++ path : String).data)) :
    raw_url ("https://github.com/" ++ owner ++ "/" ++ repo ++ "/blob/" ++ branch ++ "/" ++ path)
      = "https://raw.githubusercontent.com/" ++ owner ++ "/" ++ repo ++ "/" ++ branch ++ "/" ++ path :=
  raw_url_general owner repo branch path h1 h2 h3

/-- C3 witness: the amended transform evaluated at a benign concrete
URL. -/
theorem C3_raw_url_witness :
    raw_url ("https://github.com/" ++ "john" ++ "/" ++ "proj" ++ "/blob/" ++ "main" ++ "/" ++ "src/app.py")
      = "https://raw.githubusercontent.com/" ++ "john" ++ "/" ++ "proj" ++ "/" ++ "main" ++ "/" ++ "src/app.py" :=
  C3_raw_url_amended "john" "proj" "main" "src/app.py" (by decide) (by decide) (by decide)

/-- C4: the code snippet is the first 2500 characters of the fetched
body — bodies longer than 2500 characters are cut to exactly 2500, and
shorter or equal bodies pass through unchanged. -/
theorem C4_code_snippet (text : String) :
    (2500 < text.length → (code_snippet text).length = 2500)
    ∧ (text.length ≤ 2500 → code_snippet text = text) := by
  constructor
  · intro h
    have hlen : (code_snippet text).length = (text.data.take 2500).length := rfl
    have hdata : text.data.length = text.length := rfl
    rw [hlen, List.length_take]
    omega
  · intro h
    apply String.ext
    show text.data.take 2500 = text.data
    apply List.take_of_length_le
    show text.data.length ≤ 2500
    exact h

/-- C4 witness: a 2501-character body is cut to 2500 characters and a
2-character body passes through unchanged. -/
theorem C4_code_snippet_witness :
    (code_snippet bigBody).length = 2500 ∧ code_snippet "hi" = "hi" :=
  ⟨(C4_code_snippet bigBody).1 (by
      show 2500 < (List.replicate 2501 'x').length
      rw [List.length_replicate]
      omega),
   (C4_code_snippet "hi").2 (by decide)⟩

theorem lookup_doc_none (level : String) (h1 : level ≠ "basic")
    (h2 : level ≠ "detailed") (h3 : level ≠ "advanced") :
    List.lookup level DOCUMENTATION_PROMPTS = none := by
  have b1 : (level == "basic") = false := beq_eq_false_iff_ne.mpr h1
  have b2 : (level == "detailed") = false := beq_eq_false_iff_ne.mpr h2
  have b3 : (level == "advanced") = false := beq_eq_false_iff_ne.mpr h3
  simp [DOCUMENTATION_PROMPTS, List.lookup, b1, b2, b3]

theorem lookup_ai_none (level : String) (h1 : level ≠ "basic")
    (h2 : level ≠ "detailed") (h3 : level ≠ "advanced") :
    List.lookup level AI_DETECTION_PROMPTS = none := by
  have b1 : (level == "basic") = false := beq_eq_false_iff_ne.mpr h1
  have b2 : (level == "detailed") = false := beq_eq_false_iff_ne.mpr h2
  have b3 : (level == "advanced") = false := beq_eq_false_iff_ne.mpr h3
  simp [AI_DETECTION_PROMPTS, List.lookup, b1, b2, b3]

/-- C5: the Prompt Catalog lookup returns the exact fixed preset string
for each of the six valid (analysis type, complexity) pairs, none of
which is empty; an unrecognized complexity key falls back to the selected
analysis type's detailed-tier string. -/
theorem C5_prompt_catalog :
    selectPrompt "Documentation Generator" "basic" = doc_basic_prompt
    ∧ selectPrompt "Documentation Generator" "detailed" = doc_detailed_prompt
    ∧ selectPrompt "Documentation Generator" "advanced" = doc_advanced_prompt
    ∧ selectPrompt "AI Code Detection" "basic" = ai_basic_prompt
    ∧ selectPrompt "AI Code Detection" "detailed" = ai_detailed_prompt
    ∧ selectPrompt "AI Code Detection" "advanced" = ai_advanced_prompt
    ∧ doc_basic_prompt ≠ "" ∧ doc_detailed_prompt ≠ "" ∧ doc_advanced_prompt ≠ ""
    ∧ ai_basic_prompt ≠ "" ∧ ai_detailed_prompt ≠ "" ∧ ai_advanced_prompt ≠ ""
    ∧ ∀ level : String, level ≠ "basic" → level ≠ "detailed" → level ≠ "advanced" →
        selectPrompt "Documentation Generator" level = doc_detailed_prompt
        ∧ selectPrompt "AI Code Detection" level = ai_detailed_prompt := by
  refine ⟨rfl, rfl, rfl, rfl, rfl, rfl,
    by decide, by decide, by decide, by decide, by decide, by decide, ?_⟩
  intro level h1 h2 h3
  constructor
  · show selectPrompt "Documentation Generator" level = doc_detailed_prompt
    simp only [selectPrompt, if_pos rfl, dict_get]
    rw [lookup_doc_none level h1 h2 h3]
    rfl
  · show selectPrompt "AI Code Detection" level = ai_detailed_prompt
    simp only [selectPrompt, dict_get]
    rw [if_neg (by decide), lookup_ai_none level h1 h2 h3]
    rfl

/-- C5 witness: an unrecognized complexity key (`weird`) falls back to
the detailed tier of each analysis type. -/
theorem C5_prompt_catalog_witness :
    selectPrompt "Documentation Generator" "weird" = doc_detailed_prompt
    ∧ selectPrompt "AI Code Detection" "weird" = ai_detailed_prompt :=
  C5_prompt_catalog.2.2.2.2.2.2.2.2.2.2.2.2 "weird" (by decide) (by decide) (by decide)

/-- C6: for every successful search response the driving loop processes
at most the first 3 items (one fetch per processed item, at most one LLM
call per processed item, in sequence), and when the search returns 0
items no fetch or analyze call occurs and the user sees the zero-result
banner. -/
theorem C6_first_three (q : String) (f : SearchFilters)
    (mode level token surl : String)
    (http : String → String → List (String × String) → GetOutcome)
    (fetch : String → Nat × String) (llm : String → Except String String)
    (r : SearchResponse) (hq : q ≠ "")
    (hs : http surl (enhanced_query q f) (HEADERS token)
      = GetOutcome.response 200 (some r)) :
    fetchedUrls (runAnalyze q f mode level token surl http fetch llm)
        = (r.items.take 3).map (fun it => raw_url it.html_url)
    ∧ (fetchedUrls (runAnalyze q f mode level token surl http fetch llm)).length ≤ 3
    ∧ (llmInputs (runAnalyze q f mode level token surl http fetch llm)).length ≤ 3
    ∧ (r.items = [] → r.total_count = 0 →
        runAnalyze q f mode level token surl http fetch llm
          = [Event.writeQuery (enhanced_query q f),
             Event.getRequest surl (enhanced_query q f) (HEADERS token),
             Event.successMsg "Found 0 results"]) := by
  have hsearch := search_github_code_ok http surl token (enhanced_query q f) r hs
  have hrun : runAnalyze q f mode level token surl http fetch llm
      = Event.writeQuery (enhanced_query q f)
        :: Event.getRequest surl (enhanced_query q f) (HEADERS token)
        :: Event.successMsg ("Found " ++ toString r.total_count ++ " results")
        :: processBatch fetch llm init_temperature (selectPrompt mode level) r.items := by
    simp [runAnalyze, hq, hsearch]
  have hfetched : fetchedUrls (runAnalyze q f mode level token surl http fetch llm)
      = (r.items.take 3).map (fun it => raw_url it.html_url) := by
    rw [hrun]
    have hb := fetchedUrls_processBatch fetch llm init_temperature
      (selectPrompt mode level) r.items
    simpa [fetchedUrls] using hb
  refine ⟨hfetched, ?_, ?_, ?_⟩
  · rw [hfetched, List.length_map]
    exact List.length_take_le 3 r.items
  · rw [hrun]
    have hb := llmInputs_flatMap_le fetch llm init_temperature
      (selectPrompt mode level) (r.items.take 3)
    have hlen := List.length_take_le 3 r.items
    have : (llmInputs (processBatch fetch llm init_temperature
        (selectPrompt mode level) r.items)).length ≤ 3 := by
      unfold processBatch
      omega
    simpa [llmInputs] using this
  · intro h0 hc
    rw [hrun, h0, hc]
    show _ = [Event.writeQuery (enhanced_query q f),
              Event.getRequest surl (enhanced_query q f) (HEADERS token),
              Event.successMsg ("Found " ++ toString (0 : Nat) ++ " results")]
    simp [processBatch]

/-- C6 witness: with a concrete oracle returning a successful response
with zero items, the transcript is exactly the enhanced-query line, the
single search request and the zero-result banner — no fetch or LLM
call. -/
theorem C6_first_three_witness :
    runAnalyze "CNN" emptyFilters "Documentation Generator" "basic" "t" "u"
        w_http0 w_fetchB w_llmA
      = [Event.writeQuery (enhanced_query "CNN" emptyFilters),
         Event.getRequest "u" (enhanced_query "CNN" emptyFilters) (HEADERS "t"),
         Event.successMsg "Found 0 results"] :=
  (C6_first_three "CNN" emptyFilters "Documentation Generator" "basic" "t" "u"
    w_http0 w_fetchB w_llmA w_resp0 (by decide) rfl).2.2.2 rfl rfl

/-- C10: triggering the Analyze action with an empty free-text query
shows only the warning and returns immediately — no enhanced query is
written and no search, fetch or analysis request is issued, whatever the
filter fields hold. -/
theorem C10_empty_query (f : SearchFilters) (mode level token surl : String)
    (http : String → String → List (String × String) → GetOutcome)
    (fetch : String → Nat × String) (llm : String → Except String String) :
    runAnalyze "" f mode level token surl http fetch llm
      = [Event.warning "Please enter a search query"] := by
  simp [runAnalyze]

/-- C7: one item's failure never aborts the batch.  For a three-item
batch in which items 1 and 3 fetch successfully and analyze successfully,
(a) if item 2's raw fetch returns a non-200 status, its slot shows the
fetch-error message while items 1 and 3 are still fetched, shown and
analyzed; (b) if item 2 fetches but its analyzer invocation raises, its
slot shows the analyzer error messages while items 1 and 3 are
unaffected.  The batch function is total, so no exception escapes the
loop in either case. -/
theorem C7_item_isolation (fetch : String → Nat × String)
    (llm : String → Except String String) (temp : Rat) (prompt : String)
    (i1 i2 i3 : Item) (t1 t3 a1 a3 : String)
    (h1 : fetch (raw_url i1.html_url) = (200, t1))
    (hl1 : llm (prompt ++ "\n\n" ++ code_snippet t1) = Except.ok a1) (ha1 : a1 ≠ "")
    (h3 : fetch (raw_url i3.html_url) = (200, t3))
    (hl3 : llm (prompt ++ "\n\n" ++ code_snippet t3) = Except.ok a3) (ha3 : a3 ≠ "") :
    ((fetch (raw_url i2.html_url)).1 ≠ 200 →
      processBatch fetch llm temp prompt [i1, i2, i3]
        = [Event.fetchGet (raw_url i1.html_url),
           Event.codeShown (code_snippet t1),
           Event.llmCall (prompt ++ "\n\n" ++ code_snippet t1) temp,
           Event.analysisShown a1,
           Event.fetchGet (raw_url i2.html_url),
           Event.errorMsg "Failed to retrieve code content",
           Event.fetchGet (raw_url i3.html_url),
           Event.codeShown (code_snippet t3),
           Event.llmCall (prompt ++ "\n\n" ++ code_snippet t3) temp,
           Event.analysisShown a3])
    ∧ (∀ t2 e2, fetch (raw_url i2.html_url) = (200, t2) →
        llm (prompt ++ "\n\n" ++ code_snippet t2) = Except.error e2 →
        processBatch fetch llm temp prompt [i1, i2, i3]
          = [Event.fetchGet (raw_url i1.html_url),
             Event.codeShown (code_snippet t1),
             Event.llmCall (prompt ++ "\n\n" ++ code_snippet t1) temp,
             Event.analysisShown a1,
             Event.fetchGet (raw_url i2.html_url),
             Event.codeShown (code_snippet t2),
             Event.llmCall (prompt ++ "\n\n" ++ code_snippet t2) temp,
             Event.errorMsg ("OpenAI API Error: " ++ e2),
             Event.errorMsg "Failed to analyze code.",
             Event.fetchGet (raw_url i3.html_url),
             Event.codeShown (code_snippet t3),
             Event.llmCall (prompt ++ "\n\n" ++ code_snippet t3) temp,
             Event.analysisShown a3]) := by
  constructor
  · intro h2
    rcases hf2 : fetch (raw_url i2.html_url) with ⟨s2, t2⟩
    have hs2 : ¬ s2 = 200 := by
      rw [hf2] at h2
      simpa using h2
    simp [processBatch, processItem, analyze_with_llm, h1, hl1, ha1, h3, hl3, ha3, hf2, hs2]
  · intro t2 e2 hf2 hl2
    simp [processBatch, processItem, analyze_with_llm, h1, hl1, ha1, h3, hl3, ha3, hf2, hl2]

/-- C7 witness: both failure modes exercised on concrete items and
oracles — item 2 failing its fetch with 404, and item 2 failing its
analysis with a raised error — while items 1 and 3 still produce
analysis results. -/
theorem C7_item_isolation_witness :
    processBatch w_fetchA w_llmA init_temperature "P" [w_item1, w_item2, w_item3]
      = [Event.fetchGet (raw_url w_item1.html_url),
         Event.codeShown (code_snippet (raw_url w_item1.html_url)),
         Event.llmCall ("P" ++ "\n\n" ++ code_snippet (raw_url w_item1.html_url)) init_temperature,
         Event.analysisShown "A",
         Event.fetchGet (raw_url w_item2.html_url),
         Event.errorMsg "Failed to retrieve code content",
         Event.fetchGet (raw_url w_item3.html_url),
         Event.codeShown (code_snippet (raw_url w_item3.html_url)),
         Event.llmCall ("P" ++ "\n\n" ++ code_snippet (raw_url w_item3.html_url)) init_temperature,
         Event.analysisShown "A"]
    ∧ processBatch w_fetchB w_llmB init_temperature "P" [w_item1, w_item2, w_item3]
      = [Event.fetchGet (raw_url w_item1.html_url),
         Event.codeShown (code_snippet (raw_url w_item1.html_url)),
         Event.llmCall ("P" ++ "\n\n" ++ code_snippet (raw_url w_item1.html_url)) init_temperature,
         Event.analysisShown "A",
         Event.fetchGet (raw_url w_item2.html_url),
         Event.codeShown (code_snippet (raw_url w_item2.html_url)),
         Event.llmCall ("P" ++ "\n\n" ++ code_snippet (raw_url w_item2.html_url)) init_temperature,
         Event.errorMsg ("OpenAI API Error: " ++ "boom"),
         Event.errorMsg "Failed to analyze code.",
         Event.fetchGet (raw_url w_item3.html_url),
         Event.codeShown (code_snippet (raw_url w_item3.html_url)),
         Event.llmCall ("P" ++ "\n\n" ++ code_snippet (raw_url w_item3.html_url)) init_temperature,
         Event.analysisShown "A"] :=
  ⟨(C7_item_isolation w_fetchA w_llmA init_temperature "P" w_item1 w_item2 w_item3
      (raw_url w_item1.html_url) (raw_url w_item3.html_url) "A" "A"
      (by decide) rfl (by decide) (by decide) rfl (by decide)).1 (by decide),
   (C7_item_isolation w_fetchB w_llmB init_temperature "P" w_item1 w_item2 w_item3
      (raw_url w_item1.html_url) (raw_url w_item3.html_url) "A" "A"
      rfl rfl (by decide) rfl rfl (by decide)).2
      (raw_url w_item2.html_url) "boom" rfl rfl⟩

/-- C8 counterexample: `response.raise_for_status()` raises only for 4xx
and 5xx codes, so a non-2xx status (here 300) whose body parses as JSON is
returned with its items instead of being reported as an error with no
items, contradicting the claim for that input. -/
theorem C8_counterexample :
    (search_github_code ce_http300 "u" "t" "q").1 = some ce_resp
    ∧ ce_resp.items ≠ [] := by
  constructor
  · rfl
  · simp [ce_resp]

/-- C8 (amended): the search client issues exactly one GET per call with
the `q` parameter and the three required headers; on any 4xx/5xx status
or transport error (or unparseable body) it reports a recoverable error
and returns no items; on a status below 400 with a parseable JSON body
(2xx in practice, since redirects are followed) it returns the parsed
body containing `total_count` and the item sequence. -/
theorem C8_search_client (http : String → String → List (String × String) → GetOutcome)
    (url token query : String) :
    searchGets (search_github_code http url token query).2 = [(url, query, HEADERS token)]
    ∧ HEADERS token = [("Accept", "application/vnd.github+json"),
        ("Authorization", "Bearer " ++ token),
        ("X-GitHub-Api-Version", "2022-11-28")]
    ∧ (∀ e, http url query (HEADERS token) = GetOutcome.transportError e →
        (search_github_code http url token query).1 = none
        ∧ Event.errorMsg ("GitHub API Error: " ++ e)
            ∈ (search_github_code http url token query).2)
    ∧ (∀ s body, http url query (HEADERS token) = GetOutcome.response s body → 400 ≤ s →
        (search_github_code http url token query).1 = none
        ∧ Event.errorMsg ("GitHub API Error: HTTP " ++ toString s)
            ∈ (search_github_code http url token query).2)
    ∧ (∀ s r, http url query (HEADERS token) = GetOutcome.response s (some r) → s < 400 →
        search_github_code http url token query
          = (some r, [Event.getRequest url query (HEADERS token)])) := by
  refine ⟨?_, rfl, ?_, ?_, ?_⟩
  · rcases h : http url query (HEADERS token) with e | ⟨s, b⟩
    · simp [search_github_code, h, searchGets]
    · by_cases hs : 400 ≤ s
      · simp [search_github_code, h, hs, searchGets]
      · cases b <;> simp [search_github_code, h, hs, searchGets]
  · intro e he
    simp [search_github_code, he]
  · intro s body hr hs
    cases body <;> simp [search_github_code, hr, hs]
  · intro s r hr hs
    have hns : ¬ 400 ≤ s := by omega
    simp [search_github_code, hr, hns]

/-- C8 witness: the amended statement exercised at concrete oracles for
the success, transport-error and HTTP-500 branches. -/
theorem C8_search_client_witness :
    searchGets (search_github_code w_http0 "u" "t" "q").2 = [("u", "q", HEADERS "t")]
    ∧ search_github_code w_http0 "u" "t" "q"
        = (some w_resp0, [Event.getRequest "u" "q" (HEADERS "t")])
    ∧ (search_github_code w_httpErr "u" "t" "q").1 = none
    ∧ (search_github_code w_http500 "u" "t" "q").1 = none :=
  ⟨(C8_search_client w_http0 "u" "t" "q").1,
   (C8_search_client w_http0 "u" "t" "q").2.2.2.2 200 w_resp0 rfl (by decide),
   ((C8_search_client w_httpErr "u" "t" "q").2.2.1 "down" rfl).1,
   ((C8_search_client w_http500 "u" "t" "q").2.2.2.1 500 none rfl (by decide)).1⟩

/-- C9: the analyzer submits exactly one completion request whose
instruction is the prompt text, two newlines, then the snippet, tagged
with the temperature fixed at 0.7 in `init`; on success it returns the
model's textual response verbatim, and a raised invocation error is
caught, reported, and turned into a `None` return instead of crashing the
batch. -/
theorem C9_analyzer (llm : String → Except String String) (temp : Rat)
    (snippet prompt : String) :
    llmInputs (analyze_with_llm llm temp snippet prompt).2 = [prompt ++ "\n\n" ++ snippet]
    ∧ Event.llmCall (prompt ++ "\n\n" ++ snippet) temp
        ∈ (analyze_with_llm llm temp snippet prompt).2
    ∧ (∀ c, llm (prompt ++ "\n\n" ++ snippet) = Except.ok c →
        (analyze_with_llm llm temp snippet prompt).1 = some c)
    ∧ (∀ e, llm (prompt ++ "\n\n" ++ snippet) = Except.error e →
        (analyze_with_llm llm temp snippet prompt).1 = none
        ∧ Event.errorMsg ("OpenAI API Error: " ++ e)
            ∈ (analyze_with_llm llm temp snippet prompt).2)
    ∧ init_temperature = 7 / 10 := by
  refine ⟨?_, ?_, ?_, ?_, rfl⟩
  · rcases hl : llm (prompt ++ "\n\n" ++ snippet) with e | c <;>
      simp [analyze_with_llm, hl, llmInputs]
  · rcases hl : llm (prompt ++ "\n\n" ++ snippet) with e | c <;>
      simp [analyze_with_llm, hl]
  · intro c hc
    simp [analyze_with_llm, hc]
  · intro e he
    simp [analyze_with_llm, he]

/-- C9 witness: the analyzer contract exercised at a concrete succeeding
oracle and a concrete raising oracle. -/
theorem C9_analyzer_witness :
    llmInputs (analyze_with_llm w_llmA init_temperature "s" "P").2 = ["P" ++ "\n\n" ++ "s"]
    ∧ (analyze_with_llm w_llmA init_temperature "s" "P").1 = some "A"
    ∧ (analyze_with_llm w_llmErr init_temperature "s" "P").1 = none :=
  ⟨(C9_analyzer w_llmA init_temperature "s" "P").1,
   (C9_analyzer w_llmA init_temperature "s" "P").2.2.1 "A" rfl,
   ((C9_analyzer w_llmErr init_temperature "s" "P").2.2.2.1 "boom" rfl).1⟩
